import Mathlib

/-!
Shallow embedding of the DataLoader subsystem of `src/domain/value_objects.rs`
(the batching-and-caching data access coordinator): configuration, cache
entries with optional TTL, metrics, key deduplication, batch execution,
`load`, `load_many`, and construction.  Rust `HashMap` values are modelled as
association lists (insert replaces the binding of an existing key), `Instant`
as a natural-number time stamp, `f64` metric averages as rationals, and the
one-shot result channels as the list of responses delivered to the pending
requests in order.  A `panic!` in the result-delivery loop is modelled by the
`Option` value `none`.
-/

set_option autoImplicit false

universe u v w

/-- Configuration for DataLoader behavior, mirroring `DataLoaderConfig`. -/
structure DataLoaderConfig where
  max_batch_size : Nat
  batch_delay_ms : Nat
  cache_enabled : Bool
  cache_ttl_seconds : Option Nat
  enable_metrics : Bool
  deriving DecidableEq, Repr

/-- The `Default` impl of `DataLoaderConfig` (lines 849-859). -/
def DataLoaderConfig.default_config : DataLoaderConfig :=
  { max_batch_size := 100
    batch_delay_ms := 10
    cache_enabled := true
    cache_ttl_seconds := some 300
    enable_metrics := true }

/-- Cache entry with optional TTL, mirroring `CacheEntry<V>`; `Instant` is
modelled as a `Nat` time stamp. -/
structure CacheEntry (V : Type u) where
  value : V
  expires_at : Option Nat
  deriving DecidableEq, Repr

/-- Mirrors `CacheEntry::new`: `expires_at = ttl.map (fun ttl => now + ttl)`,
where `now` stands for the `Instant::now()` observed at creation. -/
def CacheEntry.new {V : Type u} (value : V) (now : Nat) (ttl : Option Nat) :
    CacheEntry V :=
  { value := value, expires_at := ttl.map (fun t => now + t) }

/-- Mirrors `CacheEntry::is_expired`: expired exactly when `now > expires_at`
(and never expired when `expires_at` is unset). -/
def CacheEntry.is_expired {V : Type u} (e : CacheEntry V) (now : Nat) : Bool :=
  match e.expires_at with
  | some t => now > t
  | none => false

/-- Association-list model of `HashMap` lookup (`HashMap::get`). -/
def mapLookup {K : Type u} {A : Type v} [DecidableEq K] :
    List (K × A) → K → Option A
  | [], _ => none
  | (k, a) :: rest, key => if k = key then some a else mapLookup rest key

/-- Association-list model of `HashMap::insert`: replaces the binding of an
existing key, otherwise appends a new binding. -/
def mapInsert {K : Type u} {A : Type v} [DecidableEq K] :
    List (K × A) → K → A → List (K × A)
  | [], key, a => [(key, a)]
  | (k, b) :: rest, key, a =>
    if k = key then (key, a) :: rest else (k, b) :: mapInsert rest key a

/-- Association-list model of `HashMap::remove`. -/
def mapRemove {K : Type u} {A : Type v} [DecidableEq K] :
    List (K × A) → K → List (K × A)
  | [], _ => []
  | (k, b) :: rest, key => if k = key then rest else (k, b) :: mapRemove rest key

/-- DataLoader metrics, mirroring `DataLoaderMetrics`; the `f64` running
average is modelled as a rational number. -/
structure DataLoaderMetrics where
  total_requests : Nat
  cache_hits : Nat
  cache_misses : Nat
  batches_executed : Nat
  total_keys_loaded : Nat
  average_batch_size : ℚ
  deriving DecidableEq, Repr

/-- The derived `Default` impl of `DataLoaderMetrics`: all counters zero. -/
def DataLoaderMetrics.default_metrics : DataLoaderMetrics :=
  { total_requests := 0
    cache_hits := 0
    cache_misses := 0
    batches_executed := 0
    total_keys_loaded := 0
    average_batch_size := 0 }

/-- Mirrors `DataLoaderMetrics::update_average_batch_size` (lines 947-951):
`avg = (avg * (total_batches - 1) + batch_size) / total_batches` with
`total_batches = batches_executed`. -/
def DataLoaderMetrics.update_average_batch_size (m : DataLoaderMetrics)
    (batch_size : Nat) : DataLoaderMetrics :=
  let total_batches : ℚ := m.batches_executed
  { m with average_batch_size :=
      (m.average_batch_size * (total_batches - 1) + batch_size) / total_batches }

/-- The metrics update performed by `execute_batch_static` (lines 1205-1210):
increment `batches_executed`, add `batch_size` to `total_keys_loaded`, then
update the running average. -/
def DataLoaderMetrics.record_batch (m : DataLoaderMetrics) (batch_size : Nat) :
    DataLoaderMetrics :=
  ({ m with
      batches_executed := m.batches_executed + 1
      total_keys_loaded := m.total_keys_loaded + batch_size
   }).update_average_batch_size batch_size

/-- Folding `record_batch` over a sequence of batch sizes. -/
def DataLoaderMetrics.record_batches (m : DataLoaderMetrics) (l : List Nat) :
    DataLoaderMetrics :=
  l.foldl DataLoaderMetrics.record_batch m

/-- Pending batch request, mirroring `BatchRequest` (the one-shot sender is
modelled by the position of the corresponding response in the delivered
response list). -/
structure BatchRequest (K : Type u) where
  key : K
  deriving DecidableEq, Repr

/-- The deduplication loop of `execute_batch_static` (lines 1191-1200):
walks the pending requests keeping a `seen` set and the accumulated
`unique_keys` list. -/
def dedup_loop {K : Type u} [DecidableEq K] :
    List (BatchRequest K) → List K → List K → List K
  | [], _, unique_keys => unique_keys
  | r :: rest, seen, unique_keys =>
    if r.key ∈ seen then dedup_loop rest seen unique_keys
    else dedup_loop rest (r.key :: seen) (unique_keys ++ [r.key])

/-- The deduplicated, order-preserving unique key list computed by
`execute_batch_static` from the owned pending list. -/
def dedup_keys {K : Type u} [DecidableEq K] (pending : List (BatchRequest K)) :
    List K :=
  dedup_loop pending [] []

/-- Structural companion of `dedup_loop` used for proofs: first-occurrence
deduplication with an explicit `seen` set. -/
def dedup_aux {K : Type u} [DecidableEq K] : List K → List K → List K
  | [], _ => []
  | k :: rest, seen =>
    if k ∈ seen then dedup_aux rest seen else k :: dedup_aux rest (k :: seen)

/-- Index of the first occurrence of a key in a list (length of the list when
the key is absent). -/
def first_idx {K : Type u} [DecidableEq K] : List K → K → Nat
  | [], _ => 0
  | a :: rest, k => if a = k then 0 else first_idx rest k + 1

/-- The result-delivery loop of the success branch of `execute_batch_static`
(lines 1226-1232): each pending request (duplicates included) receives
`Ok(value)` when its key is present in the batch result; a missing key hits
`ok_or_else(|| panic!("Key not found in batch result"))`, modelled as `none`
for the whole delivery. -/
def send_results {K : Type u} {V : Type v} {E : Type w} [DecidableEq K] :
    List (BatchRequest K) → List (K × V) → Option (List (Except E V))
  | [], _ => some []
  | r :: rest, results =>
    match mapLookup results r.key with
    | some v => (send_results rest results).map (fun l => Except.ok v :: l)
    | none => none

/-- Writing a successful batch result into the cache with the configured TTL
(lines 1216-1223 and 1131-1138). -/
def cache_write_results {K : Type u} {V : Type v} [DecidableEq K]
    (cache : List (K × CacheEntry V)) (results : List (K × V))
    (config : DataLoaderConfig) (now : Nat) : List (K × CacheEntry V) :=
  if config.cache_enabled then
    results.foldl
      (fun c kv => mapInsert c kv.1 (CacheEntry.new kv.2 now config.cache_ttl_seconds))
      cache
  else cache

/-- Observable outcome of one flush: the responses delivered to the pending
requests in order (`none` models a panic in the delivery loop), the new cache
and metrics, and the argument list of every invocation of the batch
function. -/
structure BatchOutcome (K : Type u) (V : Type v) (E : Type w) where
  responses : Option (List (Except E V))
  cache : List (K × CacheEntry V)
  metrics : DataLoaderMetrics
  calls : List (List K)

/-- Mirrors `DataLoader::execute_batch_static` (lines 1180-1241): early return
on an empty pending list; deduplicate keys preserving first-occurrence order;
record the batch in metrics using the deduplicated size when metrics are
enabled; invoke the batch function once with the unique keys; on success write
results to the cache and deliver each request its value (panicking on a
missing key); on failure deliver the same error to every request. -/
def execute_batch_static {K : Type u} {V : Type v} {E : Type w} [DecidableEq K]
    (pending : List (BatchRequest K))
    (batch_load_fn : List K → Except E (List (K × V)))
    (cache : List (K × CacheEntry V))
    (config : DataLoaderConfig)
    (metrics : DataLoaderMetrics)
    (now : Nat) : BatchOutcome K V E :=
  if pending.isEmpty then
    { responses := some [], cache := cache, metrics := metrics, calls := [] }
  else
    let unique_keys := dedup_keys pending
    let batch_size := unique_keys.length
    let metrics1 :=
      if config.enable_metrics then metrics.record_batch batch_size else metrics
    match batch_load_fn unique_keys with
    | Except.ok results =>
      { responses := send_results pending results
        cache := cache_write_results cache results config now
        metrics := metrics1
        calls := [unique_keys] }
    | Except.error e =>
      { responses := some (pending.map (fun _ => Except.error e))
        cache := cache
        metrics := metrics1
        calls := [unique_keys] }

/-- The cache-check step of `load` (lines 1019-1031): with caching enabled, a
present and unexpired entry yields its value; an absent or expired entry (or
caching disabled) yields `none`. -/
def cache_check {K : Type u} {V : Type v} [DecidableEq K]
    (config : DataLoaderConfig) (cache : List (K × CacheEntry V)) (key : K)
    (now : Nat) : Option V :=
  if config.cache_enabled then
    match mapLookup cache key with
    | some entry => if entry.is_expired now then none else some entry.value
    | none => none
  else none

/-- How one `load` call returned: immediately from the cache, or by enqueueing
a pending request (the suspension on the one-shot channel is outside the
model). -/
inductive LoadStep (V : Type v) where
  | hit (value : V)
  | enqueued
  deriving DecidableEq, Repr

/-- Observable outcome of the synchronous part of one `load` call. -/
structure LoadOutcome (K : Type u) (V : Type v) where
  step : LoadStep V
  cache : List (K × CacheEntry V)
  queue : List (BatchRequest K)
  metrics : DataLoaderMetrics

/-- Mirrors the synchronous part of `DataLoader::load` (lines 1012-1047):
increment `total_requests` when metrics are enabled; on an unexpired cache hit
increment `cache_hits` and return the cached value; otherwise increment
`cache_misses` and append exactly one `BatchRequest` to the batch queue. -/
def load {K : Type u} {V : Type v} [DecidableEq K] (key : K)
    (cache : List (K × CacheEntry V)) (queue : List (BatchRequest K))
    (config : DataLoaderConfig) (metrics : DataLoaderMetrics) (now : Nat) :
    LoadOutcome K V :=
  let metrics1 :=
    if config.enable_metrics then
      { metrics with total_requests := metrics.total_requests + 1 }
    else metrics
  match cache_check config cache key now with
  | some v =>
    let metrics2 :=
      if config.enable_metrics then
        { metrics1 with cache_hits := metrics1.cache_hits + 1 }
      else metrics1
    { step := LoadStep.hit v, cache := cache, queue := queue, metrics := metrics2 }
  | none =>
    let metrics2 :=
      if config.enable_metrics then
        { metrics1 with cache_misses := metrics1.cache_misses + 1 }
      else metrics1
    { step := LoadStep.enqueued, cache := cache
      queue := queue ++ [{ key := key }], metrics := metrics2 }

/-- The cache-partition loop of `load_many` (lines 1110-1124): split the
requested keys into already-cached results and uncached keys; with caching
disabled every key is uncached. -/
def partition_cached {K : Type u} {V : Type v} [DecidableEq K]
    (config : DataLoaderConfig) (cache : List (K × CacheEntry V))
    (keys : List K) (now : Nat) : List (K × V) × List K :=
  if config.cache_enabled then
    keys.foldl
      (fun acc key =>
        match mapLookup cache key with
        | some entry =>
          if entry.is_expired now then (acc.1, acc.2 ++ [key])
          else (acc.1 ++ [(key, entry.value)], acc.2)
        | none => (acc.1, acc.2 ++ [key]))
      ([], [])
  else ([], keys)

/-- Observable outcome of one `load_many` call. -/
structure LoadManyOutcome (K : Type u) (V : Type v) (E : Type w) where
  result : Except E (List (K × V))
  cache : List (K × CacheEntry V)
  metrics : DataLoaderMetrics
  calls : List (List K)

/-- Mirrors `DataLoader::load_many` (lines 1106-1144): partition keys into
cached and uncached; when uncached keys exist, call the batch function
directly with them; an error propagates immediately (no partial map, cache
untouched); on success write the batch results to the cache and merge them
with the cached results.  The metrics are passed through untouched because the
source function never reads or writes `self.metrics`. -/
def load_many {K : Type u} {V : Type v} {E : Type w} [DecidableEq K]
    (keys : List K) (cache : List (K × CacheEntry V))
    (config : DataLoaderConfig) (metrics : DataLoaderMetrics) (now : Nat)
    (batch_load_fn : List K → Except E (List (K × V))) :
    LoadManyOutcome K V E :=
  let part := partition_cached config cache keys now
  let results := part.1
  let uncached_keys := part.2
  if uncached_keys.isEmpty then
    { result := Except.ok results, cache := cache, metrics := metrics, calls := [] }
  else
    match batch_load_fn uncached_keys with
    | Except.error e =>
      { result := Except.error e, cache := cache, metrics := metrics
        calls := [uncached_keys] }
    | Except.ok batch_results =>
      { result := Except.ok (results ++ batch_results)
        cache := cache_write_results cache batch_results config now
        metrics := metrics
        calls := [uncached_keys] }

/-- The loader state assembled by construction (the batch function is passed
to the operations separately). -/
structure DataLoader (K : Type u) (V : Type v) where
  cache : List (K × CacheEntry V)
  queue : List (BatchRequest K)
  config : DataLoaderConfig
  metrics : DataLoaderMetrics

/-- Mirrors `DataLoader::with_config` (lines 995-1006): stores the given
configuration unchanged next to an empty cache, an empty batch queue and
default metrics; no validation of the configuration is performed and
construction always succeeds. -/
def with_config {K : Type u} {V : Type v} (config : DataLoaderConfig) :
    DataLoader K V :=
  { cache := [], queue := [], config := config
    metrics := DataLoaderMetrics.default_metrics }

/-- Mirrors `DataLoader::clear_cache` (lines 1147-1152). -/
def clear_cache {K : Type u} {V : Type v}
    (cache : List (K × CacheEntry V)) (config : DataLoaderConfig) :
    List (K × CacheEntry V) :=
  if config.cache_enabled then [] else cache

/-- Mirrors `DataLoader::clear_key` (lines 1155-1160). -/
def clear_key {K : Type u} {V : Type v} [DecidableEq K]
    (cache : List (K × CacheEntry V)) (key : K) (config : DataLoaderConfig) :
    List (K × CacheEntry V) :=
  if config.cache_enabled then mapRemove cache key else cache

/-! ### Lemmas about key deduplication -/

theorem dedup_loop_eq_dedup_aux {K : Type u} [DecidableEq K]
    (reqs : List (BatchRequest K)) (seen acc : List K) :
    dedup_loop reqs seen acc = acc ++ dedup_aux (reqs.map BatchRequest.key) seen := by
  induction reqs generalizing seen acc with
  | nil => simp [dedup_loop, dedup_aux]
  | cons r rest ih =>
    by_cases h : r.key ∈ seen
    · simp [dedup_loop, dedup_aux, h, ih]
    · simp [dedup_loop, dedup_aux, h, ih]

theorem dedup_keys_eq_dedup_aux {K : Type u} [DecidableEq K]
    (pending : List (BatchRequest K)) :
    dedup_keys pending = dedup_aux (pending.map BatchRequest.key) [] := by
  simpa using dedup_loop_eq_dedup_aux pending [] []

theorem mem_dedup_aux {K : Type u} [DecidableEq K] (l : List K) (seen : List K)
    (k : K) : k ∈ dedup_aux l seen ↔ k ∈ l ∧ k ∉ seen := by
  induction l generalizing seen with
  | nil => simp [dedup_aux]
  | cons a rest ih =>
    by_cases ha : a ∈ seen
    · by_cases hk : k = a
      · subst hk
        simp only [dedup_aux, if_pos ha, ih]
        simp [ha]
      · simp [dedup_aux, ha, ih, hk]
    · simp only [dedup_aux, if_neg ha, List.mem_cons, ih]
      by_cases hk : k = a
      · subst hk; simp [ha]
      · simp [hk]

theorem nodup_dedup_aux {K : Type u} [DecidableEq K] (l : List K)
    (seen : List K) : (dedup_aux l seen).Nodup := by
  induction l generalizing seen with
  | nil => simp [dedup_aux]
  | cons a rest ih =>
    by_cases ha : a ∈ seen
    · simp [dedup_aux, ha, ih]
    · simp only [dedup_aux, if_neg ha, List.nodup_cons]
      refine ⟨fun hmem => ?_, ih _⟩
      exact ((mem_dedup_aux _ _ _).1 hmem).2 (List.mem_cons_self a seen)

theorem first_idx_dedup_aux_iff {K : Type u} [DecidableEq K]
    (l : List K) (seen : List K) (k1 k2 : K)
    (h1 : k1 ∈ l) (h1s : k1 ∉ seen) (h2 : k2 ∈ l) (h2s : k2 ∉ seen) :
    (first_idx (dedup_aux l seen) k1 < first_idx (dedup_aux l seen) k2 ↔
      first_idx l k1 < first_idx l k2) := by
  induction l generalizing seen with
  | nil => cases h1
  | cons a rest ih =>
    by_cases ha : a ∈ seen
    · have hk1a : a ≠ k1 := fun h => h1s (h ▸ ha)
      have hk2a : a ≠ k2 := fun h => h2s (h ▸ ha)
      have h1r : k1 ∈ rest := by
        rcases List.mem_cons.1 h1 with h | h
        · exact absurd h.symm hk1a
        · exact h
      have h2r : k2 ∈ rest := by
        rcases List.mem_cons.1 h2 with h | h
        · exact absurd h.symm hk2a
        · exact h
      simp only [dedup_aux, if_pos ha, first_idx, if_neg hk1a, if_neg hk2a]
      rw [Nat.add_lt_add_iff_right]
      exact ih seen h1r h1s h2r h2s
    · by_cases hk1 : k1 = a
      · subst hk1
        by_cases hk2 : k2 = k1
        · subst hk2; simp
        · have hk2a : k1 ≠ k2 := fun h => hk2 h.symm
          simp [dedup_aux, ha, first_idx, hk2a]
      · by_cases hk2 : k2 = a
        · subst hk2
          have hk1a : k2 ≠ k1 := fun h => hk1 h.symm
          simp [dedup_aux, ha, first_idx, hk1a]
        · have hak1 : a ≠ k1 := fun h => hk1 h.symm
          have hak2 : a ≠ k2 := fun h => hk2 h.symm
          have h1r : k1 ∈ rest := by
            rcases List.mem_cons.1 h1 with h | h
            · exact absurd h hk1
            · exact h
          have h2r : k2 ∈ rest := by
            rcases List.mem_cons.1 h2 with h | h
            · exact absurd h hk2
            · exact h
          have h1s' : k1 ∉ a :: seen := by
            simp only [List.mem_cons]
            rintro (h | h)
            · exact hk1 h
            · exact h1s h
          have h2s' : k2 ∉ a :: seen := by
            simp only [List.mem_cons]
            rintro (h | h)
            · exact hk2 h
            · exact h2s h
          simp only [dedup_aux, if_neg ha, first_idx, if_neg hak1, if_neg hak2]
          rw [Nat.add_lt_add_iff_right, Nat.add_lt_add_iff_right]
          exact ih (a :: seen) h1r h1s' h2r h2s'

theorem mem_dedup_keys {K : Type u} [DecidableEq K]
    (pending : List (BatchRequest K)) (k : K) :
    k ∈ dedup_keys pending ↔ k ∈ pending.map BatchRequest.key := by
  rw [dedup_keys_eq_dedup_aux]
  simp [mem_dedup_aux]

theorem nodup_dedup_keys {K : Type u} [DecidableEq K]
    (pending : List (BatchRequest K)) : (dedup_keys pending).Nodup := by
  rw [dedup_keys_eq_dedup_aux]
  exact nodup_dedup_aux _ _

theorem isEmpty_false_of_ne_nil {A : Type u} (l : List A) (h : l ≠ []) :
    l.isEmpty = false := by
  cases l with
  | nil => exact absurd rfl h
  | cons a rest => rfl

/-- Example pending list with a duplicated key, used to instantiate
hypotheses of theorems about batch execution. -/
def pending_example : List (BatchRequest Nat) :=
  [{ key := 1 }, { key := 2 }, { key := 1 }, { key := 3 }]

/-- Claim C2: for every non-empty owned pending list, the batch function is
invoked exactly once, with the deduplicated key list in which each distinct
key of the pending list appears exactly once and distinct keys are ordered by
the position of their first pending request. -/
theorem C2_batch_invoked_once_with_unique_keys
    {K : Type u} {V : Type v} {E : Type w} [DecidableEq K]
    (pending : List (BatchRequest K)) (hne : pending ≠ [])
    (batch_load_fn : List K → Except E (List (K × V)))
    (cache : List (K × CacheEntry V)) (config : DataLoaderConfig)
    (metrics : DataLoaderMetrics) (now : Nat) :
    (execute_batch_static pending batch_load_fn cache config metrics now).calls
        = [dedup_keys pending]
    ∧ (dedup_keys pending).Nodup
    ∧ (∀ k, k ∈ dedup_keys pending ↔ k ∈ pending.map BatchRequest.key)
    ∧ (∀ k1 k2, k1 ∈ pending.map BatchRequest.key →
        k2 ∈ pending.map BatchRequest.key →
        (first_idx (dedup_keys pending) k1 < first_idx (dedup_keys pending) k2 ↔
          first_idx (pending.map BatchRequest.key) k1 <
            first_idx (pending.map BatchRequest.key) k2)) := by
  refine ⟨?_, nodup_dedup_keys pending, fun k => mem_dedup_keys pending k, ?_⟩
  · unfold execute_batch_static
    rw [isEmpty_false_of_ne_nil pending hne]
    split
    · simp_all
    · cases hcall : batch_load_fn (dedup_keys pending) <;> simp [hcall]
  · intro k1 k2 h1 h2
    rw [dedup_keys_eq_dedup_aux]
    exact first_idx_dedup_aux_iff _ [] k1 k2 h1 (by simp) h2 (by simp)

theorem C2_batch_invoked_once_with_unique_keys_witness :
    pending_example ≠ []
    ∧ (1 : Nat) ∈ pending_example.map BatchRequest.key
    ∧ (3 : Nat) ∈ pending_example.map BatchRequest.key
    ∧ (first_idx (dedup_keys pending_example) 1 <
          first_idx (dedup_keys pending_example) 3 ↔
        first_idx (pending_example.map BatchRequest.key) 1 <
          first_idx (pending_example.map BatchRequest.key) 3) :=
  ⟨by decide, by decide, by decide,
    (C2_batch_invoked_once_with_unique_keys pending_example (by decide)
      (fun _ => Except.ok ([] : List (Nat × Nat)) : List Nat → Except Nat (List (Nat × Nat)))
      [] DataLoaderConfig.default_config DataLoaderMetrics.default_metrics
      0).2.2.2 1 3 (by decide) (by decide)⟩

theorem map_const_eq_replicate {A : Type u} {B : Type v} (l : List A) (b : B) :
    l.map (fun _ => b) = List.replicate l.length b := by
  induction l <;> simp_all [List.replicate_succ]

/-- Claim C3: when the batch function returns an error, every pending request
of the flushed batch (duplicates included) receives exactly that error, none
receives a value, and the cache is left unchanged by the flush. -/
theorem C3_batch_error_all_or_nothing
    {K : Type u} {V : Type v} {E : Type w} [DecidableEq K]
    (pending : List (BatchRequest K))
    (batch_load_fn : List K → Except E (List (K × V)))
    (cache : List (K × CacheEntry V)) (config : DataLoaderConfig)
    (metrics : DataLoaderMetrics) (now : Nat) (e : E)
    (hf : batch_load_fn (dedup_keys pending) = Except.error e) :
    (execute_batch_static pending batch_load_fn cache config metrics now).responses
        = some (List.replicate pending.length (Except.error e))
    ∧ (execute_batch_static pending batch_load_fn cache config metrics now).cache
        = cache := by
  by_cases hp : pending = []
  · subst hp
    simp [execute_batch_static]
  · unfold execute_batch_static
    rw [isEmpty_false_of_ne_nil pending hp]
    simp [hf, map_const_eq_replicate]

theorem C3_batch_error_all_or_nothing_witness :
    ((fun _ => Except.error 7 : List Nat → Except Nat (List (Nat × Nat)))
        (dedup_keys pending_example) = Except.error 7)
    ∧ ((execute_batch_static pending_example
          (fun _ => Except.error 7 : List Nat → Except Nat (List (Nat × Nat)))
          [] DataLoaderConfig.default_config DataLoaderMetrics.default_metrics
          0).responses
        = some (List.replicate pending_example.length (Except.error 7))
      ∧ (execute_batch_static pending_example
          (fun _ => Except.error 7 : List Nat → Except Nat (List (Nat × Nat)))
          [] DataLoaderConfig.default_config DataLoaderMetrics.default_metrics
          0).cache = []) :=
  ⟨rfl,
    C3_batch_error_all_or_nothing pending_example
      (fun _ => Except.error 7) [] DataLoaderConfig.default_config
      DataLoaderMetrics.default_metrics 0 7 rfl⟩

/-- Claim C6: for every flush of a non-empty batch with metrics enabled,
`batches_executed` grows by exactly one and `total_keys_loaded` by exactly the
number of unique keys of the batch, whatever the batch function returns (the
update happens before the batch function is invoked, so it does not depend on
the outcome of the call). -/
theorem C6_flush_metrics_unique_keys
    {K : Type u} {V : Type v} {E : Type w} [DecidableEq K]
    (pending : List (BatchRequest K)) (hne : pending ≠ [])
    (batch_load_fn : List K → Except E (List (K × V)))
    (cache : List (K × CacheEntry V)) (config : DataLoaderConfig)
    (hm : config.enable_metrics = true)
    (metrics : DataLoaderMetrics) (now : Nat) :
    (execute_batch_static pending batch_load_fn cache config metrics
        now).metrics.batches_executed = metrics.batches_executed + 1
    ∧ (execute_batch_static pending batch_load_fn cache config metrics
        now).metrics.total_keys_loaded
        = metrics.total_keys_loaded + (dedup_keys pending).length := by
  unfold execute_batch_static
  rw [isEmpty_false_of_ne_nil pending hne]
  cases hcall : batch_load_fn (dedup_keys pending) <;>
    simp [hcall, hm, DataLoaderMetrics.record_batch,
      DataLoaderMetrics.update_average_batch_size]

theorem C6_flush_metrics_unique_keys_witness :
    pending_example ≠ []
    ∧ DataLoaderConfig.default_config.enable_metrics = true
    ∧ ((execute_batch_static pending_example
          (fun _ => Except.ok [] : List Nat → Except Nat (List (Nat × Nat)))
          [] DataLoaderConfig.default_config DataLoaderMetrics.default_metrics
          0).metrics.batches_executed
        = DataLoaderMetrics.default_metrics.batches_executed + 1
      ∧ (execute_batch_static pending_example
          (fun _ => Except.ok [] : List Nat → Except Nat (List (Nat × Nat)))
          [] DataLoaderConfig.default_config DataLoaderMetrics.default_metrics
          0).metrics.total_keys_loaded
        = DataLoaderMetrics.default_metrics.total_keys_loaded
            + (dedup_keys pending_example).length) :=
  ⟨by decide, rfl,
    C6_flush_metrics_unique_keys pending_example (by decide)
      (fun _ => Except.ok []) [] DataLoaderConfig.default_config rfl
      DataLoaderMetrics.default_metrics 0⟩

theorem record_batch_avg_mul (m : DataLoaderMetrics) (b : Nat) :
    (m.record_batch b).average_batch_size * ((m.batches_executed : ℚ) + 1)
      = m.average_batch_size * (m.batches_executed : ℚ) + b := by
  have hne : ((m.batches_executed : ℚ) + 1) ≠ 0 := by positivity
  simp only [DataLoaderMetrics.record_batch,
    DataLoaderMetrics.update_average_batch_size]
  push_cast
  rw [div_mul_cancel₀ _ hne]
  ring

theorem record_batches_count_sum (l : List Nat) :
    ∀ m : DataLoaderMetrics,
      (m.record_batches l).batches_executed = m.batches_executed + l.length
      ∧ (m.record_batches l).average_batch_size
          * ((m.batches_executed : ℚ) + (l.length : ℚ))
        = m.average_batch_size * (m.batches_executed : ℚ)
          + (l.sum : ℚ) := by
  induction l with
  | nil =>
    intro m
    simp [DataLoaderMetrics.record_batches]
  | cons b rest ih =>
    intro m
    have hrec : m.record_batches (b :: rest)
        = (m.record_batch b).record_batches rest := rfl
    have hcount : (m.record_batch b).batches_executed
        = m.batches_executed + 1 := rfl
    obtain ⟨ihc, ihs⟩ := ih (m.record_batch b)
    rw [hcount] at ihc ihs
    constructor
    · rw [hrec, ihc]
      simp [List.length_cons]
      omega
    · rw [hrec]
      have hmul := record_batch_avg_mul m b
      simp only [List.sum_cons, List.length_cons]
      push_cast at ihs ⊢
      rw [hmul] at ihs
      ring_nf at ihs ⊢
      linarith [ihs]

/-- Claim C7: every recorded batch updates the running average by the
recurrence `avg + (newBatchSize - avg) / batchesExecuted` with
`batchesExecuted` taken after the increment for this batch, and consequently
after any non-empty sequence of recorded batches starting from default
metrics the average equals the arithmetic mean of the recorded batch
sizes. -/
theorem C7_running_average_batch_size (m : DataLoaderMetrics) (b : Nat)
    (l : List Nat) (hl : l ≠ []) :
    (m.record_batch b).batches_executed = m.batches_executed + 1
    ∧ (m.record_batch b).average_batch_size
        = m.average_batch_size
          + ((b : ℚ) - m.average_batch_size)
            / (((m.record_batch b).batches_executed : ℚ))
    ∧ (DataLoaderMetrics.default_metrics.record_batches l).average_batch_size
        = (l.sum : ℚ) / (l.length : ℚ) := by
  have hcount : (m.record_batch b).batches_executed
      = m.batches_executed + 1 := rfl
  refine ⟨hcount, ?_, ?_⟩
  · have hne : ((m.batches_executed : ℚ) + 1) ≠ 0 := by positivity
    have hmul := record_batch_avg_mul m b
    have h1 : (m.record_batch b).average_batch_size
        = (m.average_batch_size * (m.batches_executed : ℚ) + (b : ℚ))
            / ((m.batches_executed : ℚ) + 1) := (eq_div_iff hne).mpr hmul
    rw [hcount, h1]
    push_cast
    field_simp
    ring
  · have hinv := (record_batches_count_sum l DataLoaderMetrics.default_metrics).2
    have hlen0 : l.length ≠ 0 := by
      cases l with
      | nil => exact absurd rfl hl
      | cons a r => simp
    have hlen : ((l.length : ℚ)) ≠ 0 := by exact_mod_cast hlen0
    rw [eq_div_iff hlen]
    simpa [DataLoaderMetrics.default_metrics] using hinv

theorem C7_running_average_batch_size_witness :
    ([2, 4] : List Nat) ≠ []
    ∧ ((DataLoaderMetrics.default_metrics.record_batch 5).batches_executed
        = DataLoaderMetrics.default_metrics.batches_executed + 1
      ∧ (DataLoaderMetrics.default_metrics.record_batch 5).average_batch_size
          = DataLoaderMetrics.default_metrics.average_batch_size
            + (((5 : Nat) : ℚ)
                  - DataLoaderMetrics.default_metrics.average_batch_size)
              / (((DataLoaderMetrics.default_metrics.record_batch
                    5).batches_executed : ℚ))
      ∧ (DataLoaderMetrics.default_metrics.record_batches
            [2, 4]).average_batch_size
          = ((([2, 4] : List Nat).sum : Nat) : ℚ)
              / ((([2, 4] : List Nat).length : ℚ))) :=
  ⟨by decide,
    C7_running_average_batch_size DataLoaderMetrics.default_metrics 5 [2, 4]
      (by decide)⟩

/-- Claim C5: every `load` call with metrics enabled increments
`total_requests` by one; a call that finds an unexpired cached value (with
caching enabled) increments `cache_hits`, leaves `cache_misses` unchanged and
returns the cached value without enqueueing; any other call increments
`cache_misses`, leaves `cache_hits` unchanged and appends exactly one pending
request to the queue. -/
theorem C5_load_metrics {K : Type u} {V : Type v} [DecidableEq K] (key : K)
    (cache : List (K × CacheEntry V)) (queue : List (BatchRequest K))
    (config : DataLoaderConfig) (hm : config.enable_metrics = true)
    (metrics : DataLoaderMetrics) (now : Nat) :
    (load key cache queue config metrics now).metrics.total_requests
        = metrics.total_requests + 1
    ∧ (∀ v, cache_check config cache key now = some v →
        (load key cache queue config metrics now).metrics.cache_hits
            = metrics.cache_hits + 1
        ∧ (load key cache queue config metrics now).metrics.cache_misses
            = metrics.cache_misses
        ∧ (load key cache queue config metrics now).step = LoadStep.hit v
        ∧ (load key cache queue config metrics now).queue = queue)
    ∧ (cache_check config cache key now = none →
        (load key cache queue config metrics now).metrics.cache_misses
            = metrics.cache_misses + 1
        ∧ (load key cache queue config metrics now).metrics.cache_hits
            = metrics.cache_hits
        ∧ (load key cache queue config metrics now).step = LoadStep.enqueued
        ∧ (load key cache queue config metrics now).queue
            = queue ++ [{ key := key }]) := by
  cases hc : cache_check config cache key now <;> simp [load, hm, hc]

theorem C5_load_metrics_witness :
    DataLoaderConfig.default_config.enable_metrics = true
    ∧ cache_check DataLoaderConfig.default_config
        [((1 : Nat), ({ value := (42 : Nat), expires_at := none } : CacheEntry Nat))]
        1 0 = some 42
    ∧ (load 1 [((1 : Nat), ({ value := (42 : Nat), expires_at := none } : CacheEntry Nat))]
          [] DataLoaderConfig.default_config DataLoaderMetrics.default_metrics
          0).metrics.total_requests
        = DataLoaderMetrics.default_metrics.total_requests + 1
    ∧ ((load 1 [((1 : Nat), ({ value := (42 : Nat), expires_at := none } : CacheEntry Nat))]
          [] DataLoaderConfig.default_config DataLoaderMetrics.default_metrics
          0).metrics.cache_hits
        = DataLoaderMetrics.default_metrics.cache_hits + 1
      ∧ (load 1 [((1 : Nat), ({ value := (42 : Nat), expires_at := none } : CacheEntry Nat))]
          [] DataLoaderConfig.default_config DataLoaderMetrics.default_metrics
          0).metrics.cache_misses
        = DataLoaderMetrics.default_metrics.cache_misses
      ∧ (load 1 [((1 : Nat), ({ value := (42 : Nat), expires_at := none } : CacheEntry Nat))]
          [] DataLoaderConfig.default_config DataLoaderMetrics.default_metrics
          0).step = LoadStep.hit 42
      ∧ (load 1 [((1 : Nat), ({ value := (42 : Nat), expires_at := none } : CacheEntry Nat))]
          [] DataLoaderConfig.default_config DataLoaderMetrics.default_metrics
          0).queue = []) :=
  ⟨rfl, by decide,
    (C5_load_metrics 1
      [((1 : Nat), ({ value := (42 : Nat), expires_at := none } : CacheEntry Nat))]
      [] DataLoaderConfig.default_config rfl DataLoaderMetrics.default_metrics
      0).1,
    (C5_load_metrics 1
      [((1 : Nat), ({ value := (42 : Nat), expires_at := none } : CacheEntry Nat))]
      [] DataLoaderConfig.default_config rfl DataLoaderMetrics.default_metrics
      0).2.1 42 (by decide)⟩

/-- Claim C8: when uncached keys exist and the batch function fails on them,
`load_many` returns that error (no partial map) and leaves the cache
unchanged. -/
theorem C8_load_many_atomic_failure
    {K : Type u} {V : Type v} {E : Type w} [DecidableEq K]
    (keys : List K) (cache : List (K × CacheEntry V))
    (config : DataLoaderConfig) (metrics : DataLoaderMetrics) (now : Nat)
    (batch_load_fn : List K → Except E (List (K × V))) (e : E)
    (hne : (partition_cached config cache keys now).2 ≠ [])
    (hf : batch_load_fn ((partition_cached config cache keys now).2)
        = Except.error e) :
    (load_many keys cache config metrics now batch_load_fn).result
        = Except.error e
    ∧ (load_many keys cache config metrics now batch_load_fn).cache = cache := by
  simp only [load_many]
  rw [isEmpty_false_of_ne_nil _ hne]
  simp [hf]

theorem C8_load_many_atomic_failure_witness :
    (partition_cached DataLoaderConfig.default_config
        ([] : List (Nat × CacheEntry Nat)) [1] 0).2 ≠ []
    ∧ ((fun _ => Except.error 9 : List Nat → Except Nat (List (Nat × Nat)))
        ((partition_cached DataLoaderConfig.default_config
          ([] : List (Nat × CacheEntry Nat)) [1] 0).2) = Except.error 9)
    ∧ ((load_many [1] ([] : List (Nat × CacheEntry Nat))
          DataLoaderConfig.default_config DataLoaderMetrics.default_metrics 0
          (fun _ => Except.error 9 : List Nat → Except Nat (List (Nat × Nat)))).result
        = Except.error 9
      ∧ (load_many [1] ([] : List (Nat × CacheEntry Nat))
          DataLoaderConfig.default_config DataLoaderMetrics.default_metrics 0
          (fun _ => Except.error 9 : List Nat → Except Nat (List (Nat × Nat)))).cache
        = []) :=
  ⟨by decide, rfl,
    C8_load_many_atomic_failure [1] [] DataLoaderConfig.default_config
      DataLoaderMetrics.default_metrics 0 (fun _ => Except.error 9) 9
      (by decide) rfl⟩

/-- Claim C10: `load_many` leaves every metrics counter unchanged, even with
metrics enabled and a batch fetch performed; only `load` and the queue-flush
path update metrics. -/
theorem C10_load_many_metrics_frame
    {K : Type u} {V : Type v} {E : Type w} [DecidableEq K]
    (keys : List K) (cache : List (K × CacheEntry V))
    (config : DataLoaderConfig) (hm : config.enable_metrics = true)
    (metrics : DataLoaderMetrics) (now : Nat)
    (batch_load_fn : List K → Except E (List (K × V)))
    (hb : (load_many keys cache config metrics now batch_load_fn).calls ≠ []) :
    (load_many keys cache config metrics now batch_load_fn).metrics
        = metrics := by
  unfold load_many
  by_cases hu : ((partition_cached config cache keys now).2).isEmpty
  · simp [hu]
  · cases hcall : batch_load_fn ((partition_cached config cache keys now).2) <;>
      simp [hu, hcall]

theorem C10_load_many_metrics_frame_witness :
    DataLoaderConfig.default_config.enable_metrics = true
    ∧ (load_many [1] ([] : List (Nat × CacheEntry Nat))
        DataLoaderConfig.default_config DataLoaderMetrics.default_metrics 0
        (fun ks => Except.ok (ks.map (fun k => (k, k)))
          : List Nat → Except Nat (List (Nat × Nat)))).calls ≠ []
    ∧ (load_many [1] ([] : List (Nat × CacheEntry Nat))
        DataLoaderConfig.default_config DataLoaderMetrics.default_metrics 0
        (fun ks => Except.ok (ks.map (fun k => (k, k)))
          : List Nat → Except Nat (List (Nat × Nat)))).metrics
      = DataLoaderMetrics.default_metrics :=
  ⟨rfl, by decide,
    C10_load_many_metrics_frame [1] [] DataLoaderConfig.default_config rfl
      DataLoaderMetrics.default_metrics 0
      (fun ks => Except.ok (ks.map (fun k => (k, k)))) (by decide)⟩

/-- Claim C9 counterexample: at the exact expiry instant (`now` equal to
`expires_at`), the entry is not expired and is still returned by the reader
cache check, although its expiry time stamp is not strictly in the future —
visibility extends up to and including the expiry instant. -/
theorem C9_visible_at_expiry_instant :
    ({ value := (42 : Nat), expires_at := some 5 } : CacheEntry Nat).is_expired
        5 = false
    ∧ cache_check DataLoaderConfig.default_config
        [((0 : Nat),
          ({ value := (42 : Nat), expires_at := some 5 } : CacheEntry Nat))]
        0 5 = some 42
    ∧ ¬ (5 < 5) := by decide

/-- Claim C9 amended: an entry is visible to readers while `expires_at` is
unset or at least `now` (visibility ends only strictly after the expiry
instant); an expired entry reads as absent, and a `load` call never modifies
the cache, so lazy expiry does not delete the entry. -/
theorem C9_lazy_expiry_visibility
    {K : Type u} {V : Type v} [DecidableEq K]
    (e : CacheEntry V) (now : Nat) (key : K)
    (cache : List (K × CacheEntry V)) (queue : List (BatchRequest K))
    (config : DataLoaderConfig) (metrics : DataLoaderMetrics) :
    (e.is_expired now = false ↔
      (e.expires_at = none ∨ ∃ t, e.expires_at = some t ∧ now ≤ t))
    ∧ (∀ e2 : CacheEntry V, mapLookup cache key = some e2 →
        e2.is_expired now = true → cache_check config cache key now = none)
    ∧ (load (V := V) key cache queue config metrics now).cache = cache := by
  refine ⟨?_, ?_, ?_⟩
  · cases he : e.expires_at with
    | none => simp [CacheEntry.is_expired, he]
    | some t =>
      simp [CacheEntry.is_expired, he, Nat.not_lt]
  · intro e2 hlook hexp
    by_cases hce : config.cache_enabled <;>
      simp [cache_check, hce, hlook, hexp]
  · cases hc : cache_check config cache key now <;> simp [load, hc]

theorem C9_lazy_expiry_visibility_witness :
    mapLookup [((1 : Nat),
        ({ value := (7 : Nat), expires_at := some 3 } : CacheEntry Nat))] 1
      = some ({ value := (7 : Nat), expires_at := some 3 } : CacheEntry Nat)
    ∧ ({ value := (7 : Nat), expires_at := some 3 } : CacheEntry Nat).is_expired
        10 = true
    ∧ cache_check DataLoaderConfig.default_config
        [((1 : Nat),
          ({ value := (7 : Nat), expires_at := some 3 } : CacheEntry Nat))]
        1 10 = none :=
  ⟨by decide, by decide,
    (C9_lazy_expiry_visibility
      ({ value := (7 : Nat), expires_at := some 3 } : CacheEntry Nat) 10 1
      [((1 : Nat),
        ({ value := (7 : Nat), expires_at := some 3 } : CacheEntry Nat))]
      [] DataLoaderConfig.default_config
      DataLoaderMetrics.default_metrics).2.1
      ({ value := (7 : Nat), expires_at := some 3 } : CacheEntry Nat)
      (by decide) (by decide)⟩

/-- Configuration with `max_batch_size` zero (the misuse named by the
spec). -/
def zero_batch_config : DataLoaderConfig :=
  { max_batch_size := 0
    batch_delay_ms := 10
    cache_enabled := true
    cache_ttl_seconds := some 300
    enable_metrics := true }

/-- Claim C4 counterexample: constructing a loader with `max_batch_size = 0`
succeeds and the invalid configuration is stored unchanged — nothing fails or
is refused at construction time. -/
theorem C4_zero_batch_size_accepted :
    (with_config (K := Nat) (V := Nat) zero_batch_config).config.max_batch_size
        = 0
    ∧ (with_config (K := Nat) (V := Nat) zero_batch_config).cache = []
    ∧ (with_config (K := Nat) (V := Nat) zero_batch_config).queue = [] :=
  ⟨rfl, rfl, rfl⟩

/-- Claim C4 amended: `with_config` performs no validation of the
configuration; any configuration, including `max_batch_size = 0`, is accepted
and stored unchanged next to an empty cache, an empty queue and default
metrics, so configuration misuse can only surface during later calls. -/
theorem C4_no_validation_at_construction {K : Type u} {V : Type v}
    (config : DataLoaderConfig) :
    (with_config (K := K) (V := V) config).config = config
    ∧ (with_config (K := K) (V := V) config).cache = []
    ∧ (with_config (K := K) (V := V) config).queue = []
    ∧ (with_config (K := K) (V := V) config).metrics
        = DataLoaderMetrics.default_metrics :=
  ⟨rfl, rfl, rfl, rfl⟩

/-- Claim C1: evaluation of the code at the failing input.  The batch
function succeeds but omits key 2; the delivery loop of
`execute_batch_static` hits `ok_or_else(|| panic!("Key not found in batch
result"))` and panics (modelled as `none`), so the request for key 2 does not
receive a distinct missing-key error value and delivery for the batch is
aborted instead. -/
theorem C1_missing_key_panics :
    (execute_batch_static [{ key := 1 }, { key := 2 }]
        (fun _ => Except.ok [(1, 10)] : List Nat → Except Nat (List (Nat × Nat)))
        [] DataLoaderConfig.default_config DataLoaderMetrics.default_metrics
        0).responses = none := rfl
